import Mathlib

/-!
Shallow embedding of `src/rllib/core/models/torch/primitives.py` (classes
`TorchMLP` and `TorchCNN`) and proofs of the specification claims about it.

Layer stacks are modelled as lists of symbolic `Layer` values; the torch
framework constructors (`nn.Linear`, `nn.LayerNorm`, `nn.ZeroPad2d`,
`nn.Conv2d`, activation classes) become `Layer` constructors.  Construction
is a total Lean function into `Except ConstructError _`: the Python
`assert` statements become `ConstructError.assertionError`, and reading an
unbound local variable (the `out_size` read after an empty loop in
`TorchCNN.__init__`) becomes `ConstructError.nameError`.
-/

/-- Torch dtypes, as far as this module mentions them. -/
inductive DType where
  | float32
  | float64
  | uint8
  deriving Repr, DecidableEq

/-- A symbolic framework-native layer, one constructor per torch layer class
that `primitives.py` instantiates: `nn.Linear(in, out, bias)`,
`nn.LayerNorm(shape)`, an activation-class instance (held by the resolved
activation name), `nn.ZeroPad2d(padding)` with padding
`(left, right, top, bottom)`, and `nn.Conv2d(in, out, kernel, stride, bias)`. -/
inductive Layer where
  | linear (inFeatures outFeatures : Int) (bias : Bool)
  | layerNorm (normalizedShape : List Int)
  | activation (name : String)
  | zeroPad2d (padding : Nat × Nat × Nat × Nat)
  | conv2d (inChannels outChannels : Int) (kernel stride : Nat × Nat) (bias : Bool)
  deriving Repr, DecidableEq

/-- The construction-time failures of this module: a failed `assert`, or a
Python `NameError` from reading the named unbound local variable. -/
inductive ConstructError where
  | assertionError
  | nameError (var : String)
  deriving Repr, DecidableEq

/-- Modelled from the spec: `get_activation_fn` lives in
`ray.rllib.models.utils`, which is not under `src/`.  Per the docstrings of
`primitives.py`, an activation is named by a string such as "relu", "tanh" or
"linear", and the name "linear" resolves to no activation class (Python
`None`) while any other name resolves to the corresponding activation class.
We return `none` for "linear" and `some name` otherwise. -/
def get_activation_fn (name : String) : Option String :=
  if name = "linear" then none else some name

/-- `Layer.isLinear l` holds exactly for dense (`nn.Linear`) layers. -/
def Layer.isLinear : Layer → Bool
  | Layer.linear _ _ _ => true
  | _ => false

/-- `if use_layernorm: layers.append(nn.LayerNorm(shape))`, as a list. -/
def lnPart (use_layernorm : Bool) (shape : List Int) : List Layer :=
  if use_layernorm then [Layer.layerNorm shape] else []

/-- `if activation is not None: layers.append(activation())`, as a list. -/
def actPart (activation : Option String) : List Layer :=
  match activation with
  | some a => [Layer.activation a]
  | none => []

/-- The `TorchMLP` module object after a successful `__init__`: its fields
`input_dim`, `mlp` (the `nn.Sequential` stack, as a layer list) and
`expected_input_dtype`. -/
structure TorchMLP where
  input_dim : Int
  mlp : List Layer
  expected_input_dtype : DType
  deriving Repr, DecidableEq

/-- The dimension chain of `TorchMLP.__init__` (lines 65-67):
`dims = [self.input_dim] + hidden_layer_dims + ([output_dim] if output_dim
else [])`.  The Python conditional tests the truthiness of `output_dim`, so
both `None` and `0` are dropped from the chain. -/
def mlpDims (input_dim : Int) (hidden_layer_dims : List Int)
    (output_dim : Option Int) : List Int :=
  input_dim :: hidden_layer_dims ++
    (match output_dim with
      | some d => if d = 0 then [] else [d]
      | none => [])

/-- The loop body of `TorchMLP.__init__` (lines 68-80): for each
`i < len(dims) - 1` append `nn.Linear(dims[i], dims[i+1], bias)`, and, when
`output_dim is None or i < len(dims) - 2`, optionally a
`nn.LayerNorm(dims[i+1])` and the hidden activation. -/
def mlpLoopLayers (dims : List Int) (outputDimIsNone : Bool)
    (hidden_layer_use_layernorm : Bool) (hiddenActivation : Option String)
    (use_bias : Bool) : List Layer :=
  (List.range (dims.length - 1)).flatMap (fun i =>
    [Layer.linear (dims.getD i 0) (dims.getD (i + 1) 0) use_bias] ++
      (if outputDimIsNone || decide (i < dims.length - 2) then
        lnPart hidden_layer_use_layernorm [dims.getD (i + 1) 0] ++
          actPart hiddenActivation
      else []))

/-- Lines 83-85 of `TorchMLP.__init__`: the output activation layer, added
when `output_dim is not None and output_activation is not None`. -/
def outActPart (output_dim : Option Int) (outputActivation : Option String) :
    List Layer :=
  match output_dim, outputActivation with
  | some _, some a => [Layer.activation a]
  | _, _ => []

/-- `TorchMLP.__init__`.  Mirrors the Python line by line:
`assert input_dim > 0`; `dims = [input_dim] + hidden_layer_dims +
([output_dim] if output_dim else [])` (note the truthiness test, which drops
`output_dim == 0`); the loop `mlpLoopLayers`; and finally the output
activation appended when `output_dim is not None and output_activation is
not None`. -/
def TorchMLP.make (input_dim : Int) (hidden_layer_dims : List Int)
    (hidden_layer_activation : String) (hidden_layer_use_layernorm : Bool)
    (output_dim : Option Int) (output_activation : String)
    (use_bias : Bool) : Except ConstructError TorchMLP :=
  if input_dim > 0 then
    let hiddenActivation := get_activation_fn hidden_layer_activation
    let dims := mlpDims input_dim hidden_layer_dims output_dim
    let layers := mlpLoopLayers dims output_dim.isNone
      hidden_layer_use_layernorm hiddenActivation use_bias
    let outputActivation := get_activation_fn output_activation
    let layers := layers ++ outActPart output_dim outputActivation
    Except.ok { input_dim := input_dim, mlp := layers,
                expected_input_dtype := DType.float32 }
  else
    Except.error ConstructError.assertionError

/-- Ceiling division on naturals, `ceil(a / b)` for `b > 0`. -/
def ceilDiv (a b : Nat) : Nat := (a + b - 1) / b

/-- Modelled from the spec: `same_padding` lives in
`ray.rllib.models.torch.misc`, which is not under `src/`.  The spec says
"SAME padding: A convolution padding convention keeping output spatial size
aligned to input size under given stride", with output spatial size =
ceil(input spatial size / stride), per dimension.  We return the
`(left, right, top, bottom)` padding that realizes this output size
(total padding per dimension `(out - 1) * stride + kernel - in`, truncated
at zero, split evenly with the remainder on the right/bottom) together with
the output size `[out_w, out_h]`. -/
def same_padding (in_size : List Nat) (kernel stride : Nat × Nat) :
    (Nat × Nat × Nat × Nat) × List Nat :=
  let w := in_size.getD 0 0
  let h := in_size.getD 1 0
  let outW := ceilDiv w stride.1
  let outH := ceilDiv h stride.2
  let padW := (outW - 1) * stride.1 + kernel.1 - w
  let padH := (outH - 1) * stride.2 + kernel.2 - h
  ((padW / 2, padW - padW / 2, padH / 2, padH - padH / 2), [outW, outH])

/-- One `cnn_filter_specifiers` entry `[number of filters, kernel, stride]`;
kernel and stride given as width x height pairs (a single int in the Python
stands for the square pair). -/
structure FilterSpec where
  out_depth : Nat
  kernel : Nat × Nat
  stride : Nat × Nat
  deriving Repr, DecidableEq

/-- The `TorchCNN` module object after a successful `__init__`: its fields
`output_width`, `output_height`, `output_depth`, `cnn` (the stack) and
`expected_input_dtype`. -/
structure TorchCNN where
  output_width : Nat
  output_height : Nat
  output_depth : Nat
  cnn : List Layer
  expected_input_dtype : DType
  deriving Repr, DecidableEq

/-- The loop of `TorchCNN.__init__` (lines 143-160): for each specifier,
compute SAME padding, append `nn.ZeroPad2d(padding)` and
`nn.Conv2d(in_depth, out_depth, kernel, stride, bias)`, optionally a
`nn.LayerNorm((out_depth, out_size[0], out_size[1]))`, optionally the
activation; thread `in_size`/`in_depth`.  Returns the accumulated layers
and `some (out_size, out_depth)` as left by the final iteration, or `none`
when the loop never ran (the Python locals stay unbound). -/
def cnnLoop (specs : List FilterSpec) (in_size : List Nat) (in_depth : Nat)
    (cnn_use_layernorm : Bool) (cnnActivation : Option String)
    (use_bias : Bool) : List Layer × Option (List Nat × Nat) :=
  match specs with
  | [] => ([], none)
  | spec :: rest =>
    let pr := same_padding in_size spec.kernel spec.stride
    let padding := pr.1
    let out_size := pr.2
    let block :=
      [Layer.zeroPad2d padding,
       Layer.conv2d (in_depth : Int) (spec.out_depth : Int)
         spec.kernel spec.stride use_bias] ++
      lnPart cnn_use_layernorm
        [(spec.out_depth : Int), (out_size.getD 0 0 : Int),
         (out_size.getD 1 0 : Int)] ++
      actPart cnnActivation
    let restResult := cnnLoop rest out_size spec.out_depth
      cnn_use_layernorm cnnActivation use_bias
    (block ++ restResult.1,
     some (restResult.2.getD (out_size, spec.out_depth)))

/-- `TorchCNN.__init__`.  Mirrors the Python: `assert len(input_dims) == 3`;
`width, height, in_depth = input_dims`; the loop `cnnLoop`; then
`self.output_width, self.output_height = out_size` and
`self.output_depth = out_depth` — which raises a `NameError` on the unbound
local `out_size` when `cnn_filter_specifiers` is empty. -/
def TorchCNN.make (input_dims : List Nat) (cnn_filter_specifiers : List FilterSpec)
    (cnn_use_layernorm : Bool) (cnn_activation : String)
    (use_bias : Bool) : Except ConstructError TorchCNN :=
  if input_dims.length = 3 then
    let cnnActivation := get_activation_fn cnn_activation
    let width := input_dims.getD 0 0
    let height := input_dims.getD 1 0
    let in_depth := input_dims.getD 2 0
    let result := cnnLoop cnn_filter_specifiers [width, height] in_depth
      cnn_use_layernorm cnnActivation use_bias
    match result.2 with
    | none => Except.error (ConstructError.nameError "out_size")
    | some final =>
      Except.ok { output_width := final.1.getD 0 0,
                  output_height := final.1.getD 1 0,
                  output_depth := final.2,
                  cnn := result.1,
                  expected_input_dtype := DType.float32 }
  else
    Except.error ConstructError.assertionError

/-- A tensor, as far as `forward` manipulates one: its shape and dtype. -/
structure Tensor where
  shape : List Nat
  dtype : DType
  deriving Repr, DecidableEq

/-- `x.permute(perm)`: output dimension `i` is input dimension `perm[i]`. -/
def Tensor.permute (t : Tensor) (perm : List Nat) : Tensor :=
  { shape := perm.map (fun i => t.shape.getD i 0), dtype := t.dtype }

/-- `x.type(dtype)`: cast, shape unchanged. -/
def Tensor.astype (t : Tensor) (d : DType) : Tensor :=
  { shape := t.shape, dtype := d }

/-- `TorchMLP.forward` (lines 91-92): `return self.mlp(x.type(
self.expected_input_dtype))`.  The method body contains no assignment to
`self`, so the state-passing translation returns the module unchanged,
together with the stack it delegates to and the tensor it feeds into that
stack (the cast input). -/
def TorchMLP.forwardS (m : TorchMLP) (x : Tensor) :
    TorchMLP × List Layer × Tensor :=
  (m, m.mlp, x.astype m.expected_input_dtype)

/-- `TorchCNN.forward` (lines 170-173): permute the channels-last input by
`(0, 3, 1, 2)`, cast it, and return `self.cnn` applied to the result — with
no further operation afterwards (in particular no permutation back).  No
assignment to `self`, so the module is returned unchanged, together with
the stack delegated to and the tensor fed into it. -/
def TorchCNN.forwardS (m : TorchCNN) (inputs : Tensor) :
    TorchCNN × List Layer × Tensor :=
  (m, m.cnn, (inputs.permute [0, 3, 1, 2]).astype m.expected_input_dtype)

/-- The stack of a successful `TorchMLP` construction (`[]` on failure). -/
def mlpStack (r : Except ConstructError TorchMLP) : List Layer :=
  match r with
  | Except.ok m => m.mlp
  | Except.error _ => []

/-- The `(output_width, output_height, output_depth)` triple of a successful
`TorchCNN` construction (`(0, 0, 0)` on failure). -/
def cnnOutputTriple (r : Except ConstructError TorchCNN) : Nat × Nat × Nat :=
  match r with
  | Except.ok m => (m.output_width, m.output_height, m.output_depth)
  | Except.error _ => (0, 0, 0)

/-- The admissible remainder of a configured layer's block once its main
layer(s) have been consumed: an optional `LayerNorm` followed by an optional
activation, in that order. -/
def blockTail : List Layer → Bool
  | [] => true
  | [Layer.activation _] => true
  | [Layer.layerNorm _] => true
  | [Layer.layerNorm _, Layer.activation _] => true
  | _ => false

/-- A configured layer's block in fixed order: the dense layer, or the
zero-padding layer then the convolution layer, first; then the optional
`LayerNorm`; then the optional activation. -/
def isBlock : List Layer → Bool
  | Layer.linear _ _ _ :: rest => blockTail rest
  | Layer.zeroPad2d _ :: Layer.conv2d _ _ _ _ _ :: rest => blockTail rest
  | _ => false

/-! ### Helper lemmas -/

lemma filter_flatMap_singleton {α β : Type} (p : β → Bool) (f : α → List β)
    (g : α → β) (h : ∀ a, (f a).filter p = [g a]) (l : List α) :
    (l.flatMap f).filter p = l.map g := by
  induction l with
  | nil => rfl
  | cons a l ih =>
    rw [List.flatMap_cons, List.filter_append, h, List.map_cons, ih]
    rfl

lemma lnPart_actPart_filter_linear (ln : Bool) (shape : List Int)
    (act : Option String) :
    (lnPart ln shape ++ actPart act).filter Layer.isLinear = [] := by
  cases ln <;> cases act <;> rfl

lemma mlpBlock_filter_linear (dims : List Int) (b ln : Bool)
    (act : Option String) (bias : Bool) (i : Nat) :
    (([Layer.linear (dims.getD i 0) (dims.getD (i + 1) 0) bias] ++
      (if b || decide (i < dims.length - 2) then
        lnPart ln [dims.getD (i + 1) 0] ++ actPart act
      else [])).filter Layer.isLinear) =
      [Layer.linear (dims.getD i 0) (dims.getD (i + 1) 0) bias] := by
  rw [List.filter_append]
  by_cases hc : (b || decide (i < dims.length - 2)) = true
  · rw [if_pos hc, lnPart_actPart_filter_linear]
    rfl
  · rw [if_neg hc]
    rfl

lemma mlpLoopLayers_filter_linear (dims : List Int) (b ln : Bool)
    (act : Option String) (bias : Bool) :
    (mlpLoopLayers dims b ln act bias).filter Layer.isLinear =
      (List.range (dims.length - 1)).map
        (fun i => Layer.linear (dims.getD i 0) (dims.getD (i + 1) 0) bias) := by
  unfold mlpLoopLayers
  exact filter_flatMap_singleton _ _ _
    (fun i => mlpBlock_filter_linear dims b ln act bias i) _

lemma outActPart_filter_linear (od : Option Int) (oact : Option String) :
    (outActPart od oact).filter Layer.isLinear = [] := by
  cases od <;> cases oact <;> rfl

lemma mlpStack_make (input_dim : Int) (hd : List Int) (ha : String)
    (ln : Bool) (od : Option Int) (oa : String) (ub : Bool)
    (h : 0 < input_dim) :
    mlpStack (TorchMLP.make input_dim hd ha ln od oa ub) =
      mlpLoopLayers (mlpDims input_dim hd od) od.isNone ln
        (get_activation_fn ha) ub ++
      outActPart od (get_activation_fn oa) := by
  unfold TorchMLP.make
  rw [if_pos h]
  rfl

lemma same_padding_snd (w h : Nat) (k s : Nat × Nat) :
    (same_padding [w, h] k s).2 = [ceilDiv w s.1, ceilDiv h s.2] := rfl

lemma cnnLoop_snd_cons_eq (spec : FilterSpec) (rest : List FilterSpec)
    (w h d : Nat) (ln : Bool) (act : Option String) (ub : Bool) :
    (cnnLoop (spec :: rest) [w, h] d ln act ub).2 =
      some ((cnnLoop rest [ceilDiv w spec.stride.1, ceilDiv h spec.stride.2]
          spec.out_depth ln act ub).2.getD
        ([ceilDiv w spec.stride.1, ceilDiv h spec.stride.2],
         spec.out_depth)) := rfl

lemma cnnLoop_snd_cons (spec : FilterSpec) (rest : List FilterSpec)
    (w h d : Nat) (ln : Bool) (act : Option String) (ub : Bool) :
    (cnnLoop (spec :: rest) [w, h] d ln act ub).2 =
      some ([(spec :: rest).foldl (fun s sp => ceilDiv s sp.stride.1) w,
             (spec :: rest).foldl (fun s sp => ceilDiv s sp.stride.2) h],
            (spec :: rest).foldl (fun _ sp => sp.out_depth) d) := by
  induction rest generalizing spec w h d with
  | nil => rfl
  | cons b rest ih =>
    rw [cnnLoop_snd_cons_eq,
      ih b (ceilDiv w spec.stride.1) (ceilDiv h spec.stride.2) spec.out_depth]
    rfl

lemma foldl_out_depth (l : List FilterSpec) (hne : l ≠ []) (d : Nat) :
    l.foldl (fun _ sp => sp.out_depth) d = (l.getLast hne).out_depth := by
  induction l generalizing d with
  | nil => exact absurd rfl hne
  | cons a l ih =>
    cases l with
    | nil => rfl
    | cons b l2 =>
      rw [List.foldl_cons, ih (by simp) a.out_depth]
      rfl

lemma cnnLoop_snd_none (specs : List FilterSpec) (in_size : List Nat)
    (d : Nat) (ln : Bool) (act : Option String) (ub : Bool) :
    (cnnLoop specs in_size d ln act ub).2 = none ↔ specs = [] := by
  cases specs <;> simp [cnnLoop]

lemma blockTail_parts (ln : Bool) (shape : List Int) (act : Option String) :
    blockTail (lnPart ln shape ++ actPart act) = true := by
  cases ln <;> cases act <;> rfl

lemma mlpBlock_isBlock (dims : List Int) (b ln : Bool) (act : Option String)
    (bias : Bool) (i : Nat) :
    isBlock ([Layer.linear (dims.getD i 0) (dims.getD (i + 1) 0) bias] ++
      (if b || decide (i < dims.length - 2) then
        lnPart ln [dims.getD (i + 1) 0] ++ actPart act
      else [])) = true := by
  by_cases hc : (b || decide (i < dims.length - 2)) = true
  · rw [if_pos hc]
    exact blockTail_parts ln _ act
  · rw [if_neg hc]
    rfl

lemma mlpLoopLayers_blocks (dims : List Int) (b ln : Bool)
    (act : Option String) (bias : Bool) :
    ∃ blocks : List (List Layer),
      mlpLoopLayers dims b ln act bias = blocks.flatten ∧
      ∀ bl ∈ blocks, isBlock bl = true := by
  refine ⟨(List.range (dims.length - 1)).map (fun i =>
    [Layer.linear (dims.getD i 0) (dims.getD (i + 1) 0) bias] ++
      (if b || decide (i < dims.length - 2) then
        lnPart ln [dims.getD (i + 1) 0] ++ actPart act
      else [])), ?_, ?_⟩
  · simp [mlpLoopLayers, List.flatMap_def]
  · intro bl hbl
    obtain ⟨i, _, rfl⟩ := List.mem_map.mp hbl
    exact mlpBlock_isBlock dims b ln act bias i

lemma cnnLoop_blocks (specs : List FilterSpec) (in_size : List Nat) (d : Nat)
    (ln : Bool) (act : Option String) (ub : Bool) :
    ∃ blocks : List (List Layer),
      (cnnLoop specs in_size d ln act ub).1 = blocks.flatten ∧
      ∀ b ∈ blocks, isBlock b = true := by
  induction specs generalizing in_size d with
  | nil => exact ⟨[], rfl, by simp⟩
  | cons spec rest ih =>
    obtain ⟨blocks, hb, hall⟩ :=
      ih (same_padding in_size spec.kernel spec.stride).2 spec.out_depth
    refine ⟨([Layer.zeroPad2d (same_padding in_size spec.kernel spec.stride).1,
        Layer.conv2d (d : Int) (spec.out_depth : Int)
          spec.kernel spec.stride ub] ++
      lnPart ln
        [(spec.out_depth : Int),
         ((same_padding in_size spec.kernel spec.stride).2.getD 0 0 : Int),
         ((same_padding in_size spec.kernel spec.stride).2.getD 1 0 : Int)] ++
      actPart act) :: blocks, ?_, ?_⟩
    · simp only [cnnLoop, List.flatten_cons]
      rw [← hb]
    · intro b hb2
      rcases List.mem_cons.mp hb2 with h1 | h2
      · subst h1
        exact blockTail_parts ln _ act
      · exact hall b h2

lemma outActPart_cases (od : Option Int) (oact : Option String) :
    outActPart od oact = [] ∨ ∃ a, outActPart od oact = [Layer.activation a] := by
  cases od <;> cases oact <;> simp [outActPart]

lemma mlp_make_eq (id : Int) (hd : List Int) (ha : String) (ln : Bool)
    (od : Option Int) (oa : String) (ub : Bool) (h : 0 < id) :
    TorchMLP.make id hd ha ln od oa ub =
      Except.ok { input_dim := id,
                  mlp := mlpLoopLayers (mlpDims id hd od) od.isNone ln
                      (get_activation_fn ha) ub ++
                    outActPart od (get_activation_fn oa),
                  expected_input_dtype := DType.float32 } := by
  unfold TorchMLP.make
  rw [if_pos h]

lemma mlp_make_neg (id : Int) (hd : List Int) (ha : String) (ln : Bool)
    (od : Option Int) (oa : String) (ub : Bool) (h : ¬ 0 < id) :
    TorchMLP.make id hd ha ln od oa ub =
      Except.error ConstructError.assertionError := by
  unfold TorchMLP.make
  rw [if_neg h]

lemma cnn_make_eq (dims : List Nat) (specs : List FilterSpec) (ln : Bool)
    (act : String) (ub : Bool) (h3 : dims.length = 3) :
    TorchCNN.make dims specs ln act ub =
      match (cnnLoop specs [dims.getD 0 0, dims.getD 1 0] (dims.getD 2 0) ln
          (get_activation_fn act) ub).2 with
      | none => Except.error (ConstructError.nameError "out_size")
      | some final =>
        Except.ok { output_width := final.1.getD 0 0,
                    output_height := final.1.getD 1 0,
                    output_depth := final.2,
                    cnn := (cnnLoop specs [dims.getD 0 0, dims.getD 1 0]
                      (dims.getD 2 0) ln (get_activation_fn act) ub).1,
                    expected_input_dtype := DType.float32 } := by
  unfold TorchCNN.make
  rw [if_pos h3]

lemma cnn_make_neg (dims : List Nat) (specs : List FilterSpec) (ln : Bool)
    (act : String) (ub : Bool) (h3 : ¬ dims.length = 3) :
    TorchCNN.make dims specs ln act ub =
      Except.error ConstructError.assertionError := by
  unfold TorchCNN.make
  rw [if_neg h3]

lemma outActPart_some (d : Int) (oact : Option String) :
    outActPart (some d) oact = actPart oact := by
  cases oact <;> rfl

lemma mlpLoopLayers_some_zero (id : Int) (hd : List Int) (ln : Bool)
    (hact : Option String) (ub : Bool) :
    mlpLoopLayers (id :: hd) false ln hact ub =
      (List.range hd.length).flatMap (fun i =>
        [Layer.linear ((id :: hd).getD i 0) ((id :: hd).getD (i + 1) 0) ub] ++
          (if i < hd.length - 1 then
            lnPart ln [(id :: hd).getD (i + 1) 0] ++ actPart hact
          else [])) := by
  unfold mlpLoopLayers
  simp only [List.length_cons, Nat.add_sub_cancel, Bool.false_or]
  congr 1
  funext i
  congr 1
  simp only [decide_eq_true_eq]
  have h2 : hd.length + 1 - 2 = hd.length - 1 := by omega
  rw [h2]

/-! ### Claim theorems -/

/-- C1, counterexample: at `input_dim = 1`, `hidden_layer_dims = [2]`,
`output_dim = 0`, the claim's chain `[1, 2, 0]` predicts two Linear layers,
ending in a layer with out-features `0`; the constructed stack's Linear
layers are `[Linear 1 2]` alone, because the Python truthiness test drops
`output_dim == 0` from the chain. -/
theorem c1_counterexample :
    (mlpStack (TorchMLP.make 1 [2] "linear" false (some 0) "linear" true)).filter
        Layer.isLinear ≠
      (List.range (([1, 2, 0] : List Int).length - 1)).map
        (fun i => Layer.linear (([1, 2, 0] : List Int).getD i 0)
          (([1, 2, 0] : List Int).getD (i + 1) 0) true) := by
  decide

/-- C1 (amended): for every `input_dim > 0`, every `hidden_layer_dims` and
every `output_dim`, the Linear layers of the constructed `TorchMLP` chain
along `dims = [input_dim] + hidden_layer_dims + ([output_dim] if output_dim
is given and non-zero else [])` (`mlpDims`): the i-th Linear layer maps
`dims[i]` features to `dims[i+1]` features; hence the first layer's
in-features equal `input_dim` and the last layer's out-features equal the
last entry of that chain. -/
theorem c1_mlp_linear_chain (id : Int) (hd : List Int) (ha : String)
    (ln : Bool) (od : Option Int) (oa : String) (ub : Bool) (h : 0 < id) :
    (mlpStack (TorchMLP.make id hd ha ln od oa ub)).filter Layer.isLinear =
      (List.range ((mlpDims id hd od).length - 1)).map
        (fun i => Layer.linear ((mlpDims id hd od).getD i 0)
          ((mlpDims id hd od).getD (i + 1) 0) ub) := by
  rw [mlpStack_make id hd ha ln od oa ub h, List.filter_append,
    mlpLoopLayers_filter_linear, outActPart_filter_linear, List.append_nil]

/-- C1 witness: the amended chain property at `input_dim = 2`,
`hidden_layer_dims = [3]`, `output_dim = 4`. -/
theorem c1_witness :
    (0 : Int) < 2 ∧
    (mlpStack (TorchMLP.make 2 [3] "relu" true (some 4) "tanh" true)).filter
        Layer.isLinear =
      (List.range ((mlpDims 2 [3] (some 4)).length - 1)).map
        (fun i => Layer.linear ((mlpDims 2 [3] (some 4)).getD i 0)
          ((mlpDims 2 [3] (some 4)).getD (i + 1) 0) true) :=
  ⟨by decide, c1_mlp_linear_chain 2 [3] "relu" true (some 4) "tanh" true
    (by decide)⟩

/-- C2: for `input_dims = [w, h, d]` and non-empty `cnn_filter_specifiers`,
the spatial sizes are threaded through the Conv2D layers by the SAME rule
(output size = ceil(input size / stride) = `ceilDiv`, per dimension, folded
over the specifiers), and after construction `output_width` and
`output_height` equal the final layer's output spatial sizes while
`output_depth` equals the last specifier's filter count. -/
theorem c2_cnn_output_sizes (w h d : Nat) (specs : List FilterSpec)
    (ln : Bool) (act : String) (ub : Bool) (hne : specs ≠ []) :
    cnnOutputTriple (TorchCNN.make [w, h, d] specs ln act ub) =
      (specs.foldl (fun s sp => ceilDiv s sp.stride.1) w,
       specs.foldl (fun s sp => ceilDiv s sp.stride.2) h,
       (specs.getLast hne).out_depth) := by
  cases specs with
  | nil => exact absurd rfl hne
  | cons spec rest =>
    rw [cnn_make_eq [w, h, d] (spec :: rest) ln act ub rfl]
    simp only [List.getD_cons_zero, List.getD_cons_succ]
    rw [cnnLoop_snd_cons spec rest w h d ln (get_activation_fn act) ub,
      foldl_out_depth (spec :: rest) hne d]
    rfl

/-- C2 witness: two conv layers over an 8 x 6 x 3 input, strides 2 then 1. -/
theorem c2_witness :
    cnnOutputTriple (TorchCNN.make [8, 6, 3]
        (⟨16, (4, 4), (2, 2)⟩ :: [⟨32, (3, 3), (1, 1)⟩]) true "relu" true) =
      ((⟨16, (4, 4), (2, 2)⟩ :: [(⟨32, (3, 3), (1, 1)⟩ : FilterSpec)]).foldl
          (fun s sp => ceilDiv s sp.stride.1) 8,
       (⟨16, (4, 4), (2, 2)⟩ :: [(⟨32, (3, 3), (1, 1)⟩ : FilterSpec)]).foldl
          (fun s sp => ceilDiv s sp.stride.2) 6,
       ((⟨16, (4, 4), (2, 2)⟩ :: [(⟨32, (3, 3), (1, 1)⟩ : FilterSpec)]).getLast
          (List.cons_ne_nil _ _)).out_depth) :=
  c2_cnn_output_sizes 8 6 3 _ true "relu" true (List.cons_ne_nil _ _)

/-- C3, counterexample: `TorchCNN` constructed with an empty
`cnn_filter_specifiers` list fails with the `NameError` on `out_size`, which
is not one of the input assertions. -/
theorem c3_counterexample :
    TorchCNN.make [1, 1, 1] [] false "relu" true =
        Except.error (ConstructError.nameError "out_size") ∧
      ConstructError.nameError "out_size" ≠ ConstructError.assertionError := by
  constructor
  · rfl
  · intro hc
    exact ConstructError.noConfusion hc

/-- C3 (amended): any error raised while constructing `TorchMLP` or
`TorchCNN` is one of the input assertions (non-positive input dimension for
`TorchMLP`, wrong number of spatial input dimensions for `TorchCNN`) — or,
for `TorchCNN` with an empty `cnn_filter_specifiers` list, the `NameError`
from reading the unbound `out_size` after the loop; no other kind of
construction-time failure occurs. -/
theorem c3_construction_errors :
    (∀ (id : Int) (hd : List Int) (ha : String) (ln : Bool) (od : Option Int)
        (oa : String) (ub : Bool) (e : ConstructError),
      TorchMLP.make id hd ha ln od oa ub = Except.error e →
        e = ConstructError.assertionError ∧ ¬ 0 < id)
    ∧ ∀ (dims : List Nat) (specs : List FilterSpec) (ln : Bool) (act : String)
        (ub : Bool) (e : ConstructError),
      TorchCNN.make dims specs ln act ub = Except.error e →
        (e = ConstructError.assertionError ∧ dims.length ≠ 3)
        ∨ (e = ConstructError.nameError "out_size" ∧ specs = []) := by
  constructor
  · intro id hd ha ln od oa ub e hm
    by_cases h : 0 < id
    · rw [mlp_make_eq id hd ha ln od oa ub h] at hm
      exact absurd hm (by simp)
    · rw [mlp_make_neg id hd ha ln od oa ub h] at hm
      simp only [Except.error.injEq] at hm
      exact ⟨hm.symm, h⟩
  · intro dims specs ln act ub e hm
    by_cases h3 : dims.length = 3
    · rw [cnn_make_eq dims specs ln act ub h3] at hm
      cases specs with
      | nil =>
        right
        simp only [cnnLoop, Except.error.injEq] at hm
        exact ⟨hm.symm, rfl⟩
      | cons spec rest =>
        exfalso
        rw [cnnLoop_snd_cons_eq] at hm
        exact absurd hm (by simp)
    · rw [cnn_make_neg dims specs ln act ub h3] at hm
      simp only [Except.error.injEq] at hm
      exact Or.inl ⟨hm.symm, h3⟩

/-- C3 witness: the MLP branch of the amended claim at `input_dim = 0`. -/
theorem c3_witness :
    ConstructError.assertionError = ConstructError.assertionError ∧
      ¬ (0 : Int) < 0 :=
  c3_construction_errors.1 0 [] "relu" false none "linear" true
    ConstructError.assertionError
    (mlp_make_neg 0 [] "relu" false none "linear" true (by decide))

/-- C4: `TorchMLP` construction raises the `AssertionError` exactly when
`input_dim <= 0`; for every `input_dim > 0` the input-dimension validation
passes. -/
theorem c4_mlp_assertion_iff (id : Int) (hd : List Int) (ha : String)
    (ln : Bool) (od : Option Int) (oa : String) (ub : Bool) :
    TorchMLP.make id hd ha ln od oa ub =
        Except.error ConstructError.assertionError ↔ id ≤ 0 := by
  by_cases h : 0 < id
  · rw [mlp_make_eq id hd ha ln od oa ub h]
    constructor
    · intro hx
      exact absurd hx (by simp)
    · intro hle
      exact absurd h (not_lt.mpr hle)
  · rw [mlp_make_neg id hd ha ln od oa ub h]
    constructor
    · intro _
      exact not_lt.mp h
    · intro _
      rfl

/-- C5: `TorchCNN` construction raises the `AssertionError` exactly when
`input_dims` does not have exactly three elements; every three-element
`input_dims` passes that validation (even though an empty specifier list
then fails differently, with a `NameError`). -/
theorem c5_cnn_assertion_iff (dims : List Nat) (specs : List FilterSpec)
    (ln : Bool) (act : String) (ub : Bool) :
    TorchCNN.make dims specs ln act ub =
        Except.error ConstructError.assertionError ↔ dims.length ≠ 3 := by
  by_cases h3 : dims.length = 3
  · rw [cnn_make_eq dims specs ln act ub h3]
    constructor
    · intro hx
      exfalso
      cases specs with
      | nil => simp [cnnLoop] at hx
      | cons spec rest =>
        rw [cnnLoop_snd_cons_eq] at hx
        exact absurd hx (by simp)
    · intro hne
      exact absurd h3 hne
  · rw [cnn_make_neg dims specs ln act ub h3]
    constructor
    · intro _
      exact h3
    · intro _
      rfl

/-- C6: with `output_dim = 0`, the constructed `TorchMLP` contains exactly
`len(hidden_layer_dims)` Linear layers (no extra output layer, `0` being
excluded from the dimension chain); the final Linear layer (the loop
iteration `i = len(hidden_layer_dims) - 1`) is followed by neither a
`LayerNorm` nor the hidden activation, because the hidden-section condition
treats `output_dim` as given; and the trailing output-activation layer is
still appended whenever `output_activation` resolves to a non-linear
activation (`actPart` of the resolved name). -/
theorem c6_output_dim_zero (id : Int) (hd : List Int) (ha : String)
    (ln : Bool) (oa : String) (ub : Bool) (h : 0 < id) :
    ((mlpStack (TorchMLP.make id hd ha ln (some 0) oa ub)).filter
        Layer.isLinear).length = hd.length
    ∧ mlpStack (TorchMLP.make id hd ha ln (some 0) oa ub) =
        (List.range hd.length).flatMap (fun i =>
          [Layer.linear ((id :: hd).getD i 0) ((id :: hd).getD (i + 1) 0) ub] ++
            (if i < hd.length - 1 then
              lnPart ln [(id :: hd).getD (i + 1) 0] ++
                actPart (get_activation_fn ha)
            else [])) ++
        actPart (get_activation_fn oa) := by
  have hdims : mlpDims id hd (some 0) = id :: hd := by
    simp [mlpDims]
  constructor
  · rw [mlpStack_make id hd ha ln (some 0) oa ub h, List.filter_append,
      mlpLoopLayers_filter_linear, outActPart_filter_linear, List.append_nil,
      List.length_map, List.length_range, hdims, List.length_cons,
      Nat.add_sub_cancel]
  · rw [mlpStack_make id hd ha ln (some 0) oa ub h, outActPart_some, hdims]
    congr 1
    have hfalse : (some (0 : Int)).isNone = false := rfl
    rw [hfalse]
    exact mlpLoopLayers_some_zero id hd ln (get_activation_fn ha) ub

/-- C6 witness: `input_dim = 1`, `hidden_layer_dims = [2]`, `output_dim = 0`,
layernorm on, "relu" activations. -/
theorem c6_witness :
    (0 : Int) < 1 ∧
    (((mlpStack (TorchMLP.make 1 [2] "relu" true (some 0) "relu" true)).filter
        Layer.isLinear).length = ([2] : List Int).length
    ∧ mlpStack (TorchMLP.make 1 [2] "relu" true (some 0) "relu" true) =
        (List.range ([2] : List Int).length).flatMap (fun i =>
          [Layer.linear (((1 : Int) :: [2]).getD i 0)
              (((1 : Int) :: [2]).getD (i + 1) 0) true] ++
            (if i < ([2] : List Int).length - 1 then
              lnPart true [((1 : Int) :: [2]).getD (i + 1) 0] ++
                actPart (get_activation_fn "relu")
            else [])) ++
        actPart (get_activation_fn "relu")) :=
  ⟨by decide, c6_output_dim_zero 1 [2] "relu" true "relu" true (by decide)⟩

/-- C7: constructing `TorchCNN` with an empty `cnn_filter_specifiers` list
passes the validation assertion (for any three-element `input_dims`) but
fails with the `NameError` on the unbound local `out_size` read after the
loop; a non-empty specifier list is an unstated precondition. -/
theorem c7_empty_specifiers_nameerror (w h d : Nat) (ln : Bool) (act : String)
    (ub : Bool) :
    TorchCNN.make [w, h, d] [] ln act ub =
      Except.error (ConstructError.nameError "out_size") := rfl

/-- C8: `forward` mutates nothing: the state-passing translation of
`TorchMLP.forward` and `TorchCNN.forward` returns the module with every
field unchanged, for every module and every input tensor. -/
theorem c8_forward_frame :
    (∀ (m : TorchMLP) (x : Tensor), (TorchMLP.forwardS m x).1 = m)
    ∧ ∀ (m : TorchCNN) (x : Tensor), (TorchCNN.forwardS m x).1 = m :=
  ⟨fun _ _ => rfl, fun _ _ => rfl⟩

lemma cnn_make_ok_of_snd (dims : List Nat) (specs : List FilterSpec)
    (ln : Bool) (act : String) (ub : Bool) (p : List Nat × Nat)
    (h3 : dims.length = 3)
    (hs : (cnnLoop specs [dims.getD 0 0, dims.getD 1 0] (dims.getD 2 0) ln
      (get_activation_fn act) ub).2 = some p) :
    TorchCNN.make dims specs ln act ub =
      Except.ok { output_width := p.1.getD 0 0,
                  output_height := p.1.getD 1 0,
                  output_depth := p.2,
                  cnn := (cnnLoop specs [dims.getD 0 0, dims.getD 1 0]
                    (dims.getD 2 0) ln (get_activation_fn act) ub).1,
                  expected_input_dtype := DType.float32 } := by
  rw [cnn_make_eq dims specs ln act ub h3, hs]

lemma cnn_make_ok_cnn (dims : List Nat) (specs : List FilterSpec) (ln : Bool)
    (act : String) (ub : Bool) (m : TorchCNN)
    (hm : TorchCNN.make dims specs ln act ub = Except.ok m) :
    m.cnn = (cnnLoop specs [dims.getD 0 0, dims.getD 1 0] (dims.getD 2 0) ln
      (get_activation_fn act) ub).1 := by
  by_cases h3 : dims.length = 3
  · cases specs with
    | nil =>
      rw [cnn_make_eq dims [] ln act ub h3] at hm
      exact Except.noConfusion hm
    | cons spec rest =>
      rw [cnn_make_ok_of_snd dims (spec :: rest) ln act ub _ h3
        (cnnLoop_snd_cons_eq spec rest (dims.getD 0 0) (dims.getD 1 0)
          (dims.getD 2 0) ln (get_activation_fn act) ub)] at hm
      simp only [Except.ok.injEq] at hm
      rw [← hm]
  · rw [cnn_make_neg dims specs ln act ub h3] at hm
    exact Except.noConfusion hm

/-- C9: every constructed stack decomposes into configured layer blocks of
fixed order — the dense layer, or the zero-padding layer then the
convolution layer, first; then the optional `LayerNorm`; then the optional
activation (`isBlock`) — with, for `TorchMLP`, a possible trailing output
activation layer after all blocks.  Since `Layer` enumerates exactly the
framework-native kinds dense/linear, zero-padding, convolution, layer
normalization and activation, every element of a stack is of one of those
kinds. -/
theorem c9_block_structure :
    (∀ (id : Int) (hd : List Int) (ha : String) (ln : Bool) (od : Option Int)
        (oa : String) (ub : Bool) (m : TorchMLP),
      TorchMLP.make id hd ha ln od oa ub = Except.ok m →
        ∃ (blocks : List (List Layer)) (tail : List Layer),
          m.mlp = blocks.flatten ++ tail ∧
          (∀ b ∈ blocks, isBlock b = true) ∧
          (tail = [] ∨ ∃ a, tail = [Layer.activation a]))
    ∧ ∀ (dims : List Nat) (specs : List FilterSpec) (ln : Bool) (act : String)
        (ub : Bool) (m : TorchCNN),
      TorchCNN.make dims specs ln act ub = Except.ok m →
        ∃ blocks : List (List Layer),
          m.cnn = blocks.flatten ∧ ∀ b ∈ blocks, isBlock b = true := by
  constructor
  · intro id hd ha ln od oa ub m hm
    by_cases h : 0 < id
    · rw [mlp_make_eq id hd ha ln od oa ub h] at hm
      simp only [Except.ok.injEq] at hm
      subst hm
      obtain ⟨blocks, hb, hall⟩ := mlpLoopLayers_blocks (mlpDims id hd od)
        (Option.isNone od) ln (get_activation_fn ha) ub
      refine ⟨blocks, outActPart od (get_activation_fn oa), ?_, hall,
        outActPart_cases od (get_activation_fn oa)⟩
      show mlpLoopLayers (mlpDims id hd od) (Option.isNone od) ln
          (get_activation_fn ha) ub ++ outActPart od (get_activation_fn oa) =
        blocks.flatten ++ outActPart od (get_activation_fn oa)
      rw [hb]
    · rw [mlp_make_neg id hd ha ln od oa ub h] at hm
      exact Except.noConfusion hm
  · intro dims specs ln act ub m hm
    have hcnn := cnn_make_ok_cnn dims specs ln act ub m hm
    obtain ⟨blocks, hb, hall⟩ := cnnLoop_blocks specs
      [dims.getD 0 0, dims.getD 1 0] (dims.getD 2 0) ln
      (get_activation_fn act) ub
    refine ⟨blocks, ?_, hall⟩
    rw [hcnn, hb]

/-- C9 witness: block decomposition of a one-hidden-layer MLP (stack
`[Linear 1 2, activation]`) and a one-conv CNN (stack `[pad, conv]`). -/
theorem c9_witness :
    (∃ (blocks : List (List Layer)) (tail : List Layer),
      ({ input_dim := 1,
         mlp := [Layer.linear 1 2 true, Layer.activation "relu"],
         expected_input_dtype := DType.float32 } : TorchMLP).mlp =
          blocks.flatten ++ tail ∧
        (∀ b ∈ blocks, isBlock b = true) ∧
        (tail = [] ∨ ∃ a, tail = [Layer.activation a]))
    ∧ ∃ blocks : List (List Layer),
      ({ output_width := 1, output_height := 1, output_depth := 1,
         cnn := [Layer.zeroPad2d (0, 0, 0, 0),
                 Layer.conv2d 1 1 (1, 1) (1, 1) true],
         expected_input_dtype := DType.float32 } : TorchCNN).cnn =
          blocks.flatten ∧
        ∀ b ∈ blocks, isBlock b = true :=
  ⟨c9_block_structure.1 1 [2] "relu" false none "linear" true _ rfl,
   c9_block_structure.2 [1, 1, 1] [⟨1, (1, 1), (1, 1)⟩] false "linear" true
     _ rfl⟩

lemma cnn_make_ok_dtype (dims : List Nat) (specs : List FilterSpec)
    (ln : Bool) (act : String) (ub : Bool) (m : TorchCNN)
    (hm : TorchCNN.make dims specs ln act ub = Except.ok m) :
    m.expected_input_dtype = DType.float32 := by
  by_cases h3 : dims.length = 3
  · cases specs with
    | nil =>
      rw [cnn_make_eq dims [] ln act ub h3] at hm
      exact Except.noConfusion hm
    | cons spec rest =>
      rw [cnn_make_ok_of_snd dims (spec :: rest) ln act ub _ h3
        (cnnLoop_snd_cons_eq spec rest (dims.getD 0 0) (dims.getD 1 0)
          (dims.getD 2 0) ln (get_activation_fn act) ub)] at hm
      simp only [Except.ok.injEq] at hm
      rw [← hm]
  · rw [cnn_make_neg dims specs ln act ub h3] at hm
    exact Except.noConfusion hm

/-- C10: for every constructed `TorchCNN`, `forward` permutes a 4D
channels-last input `[batch, height, width, channels]` to channels-first
`[batch, channels, height, width]` and casts it to float32 before feeding it
to the convolutional stack, and delegates to exactly `self.cnn` with no
operation after it (no permutation back). -/
theorem c10_forward_permute_cast (dims : List Nat) (specs : List FilterSpec)
    (ln : Bool) (act : String) (ub : Bool) (m : TorchCNN)
    (hm : TorchCNN.make dims specs ln act ub = Except.ok m)
    (b h w c : Nat) (dt : DType) :
    (TorchCNN.forwardS m { shape := [b, h, w, c], dtype := dt }).2.2 =
        { shape := [b, c, h, w], dtype := DType.float32 } ∧
      (TorchCNN.forwardS m { shape := [b, h, w, c], dtype := dt }).2.1 =
        m.cnn := by
  constructor
  · show ({ shape := [b, c, h, w], dtype := m.expected_input_dtype } :
      Tensor) = { shape := [b, c, h, w], dtype := DType.float32 }
    rw [cnn_make_ok_dtype dims specs ln act ub m hm]
  · rfl

/-- C10 witness: the one-conv CNN applied to a `[2, 3, 4, 5]` uint8 input. -/
theorem c10_witness :
    (TorchCNN.forwardS
        { output_width := 1, output_height := 1, output_depth := 1,
          cnn := [Layer.zeroPad2d (0, 0, 0, 0),
                  Layer.conv2d 1 1 (1, 1) (1, 1) true],
          expected_input_dtype := DType.float32 }
        { shape := [2, 3, 4, 5], dtype := DType.uint8 }).2.2 =
        { shape := [2, 5, 3, 4], dtype := DType.float32 } ∧
      (TorchCNN.forwardS
        { output_width := 1, output_height := 1, output_depth := 1,
          cnn := [Layer.zeroPad2d (0, 0, 0, 0),
                  Layer.conv2d 1 1 (1, 1) (1, 1) true],
          expected_input_dtype := DType.float32 }
        { shape := [2, 3, 4, 5], dtype := DType.uint8 }).2.1 =
        ({ output_width := 1, output_height := 1, output_depth := 1,
           cnn := [Layer.zeroPad2d (0, 0, 0, 0),
                   Layer.conv2d 1 1 (1, 1) (1, 1) true],
           expected_input_dtype := DType.float32 } : TorchCNN).cnn :=
  c10_forward_permute_cast [1, 1, 1] [⟨1, (1, 1), (1, 1)⟩] false "linear"
    true _ rfl 2 3 4 5 DType.uint8
